import Mathlib

/-!
Shallow embedding of the Argus per-camera ingest agent, checked against its
natural-language specification.

Sources embedded here:
- src/engine/main.py                      (DynamicEngine.run)
- src/engine/src/core/sensors/ip_camera.py (IP_Camera: read, _reader_loop,
  _reconnect, _health_loop)
- src/engine/src/core/utils/health.py     (FrameHealthValidator)
- src/engine/src/database/metadata_handler.py (MetadataHandler)

Frames are modelled as immutable values (Python ndarray .copy() therefore
preserves the value); where aliasing itself matters (IP_Camera.read) an
explicit heap of frame cells is used.  Machine floats are modelled as
rationals.  Fallible Python code (raising exceptions) is modelled with
Option.  External library primitives that the repository merely calls
(numpy log2, the OpenCV Laplacian) are parameters of the model.
-/

namespace Argus

/-! ## Engine pipeline: src/engine/main.py, DynamicEngine.run -/

/-- The per-frame payload dict built by DynamicEngine.run: current frame,
original-frame copy, capture timestamp, frame number and the meta mapping
(an association list from string keys to stage-defined values). -/
structure Payload (F V : Type) where
  frame : F
  original_frame : F
  timestamp : Nat
  frame_number : Nat
  meta : List (String × V)
deriving DecidableEq

/-- Outcome of one call of a stage method process(payload): a returned
payload, the abort sentinel None, or a raised exception. -/
inductive StageOut (F V : Type) where
  | ok (p : Payload F V)
  | abort
  | exn (msg : String)
deriving DecidableEq

/-- A pipeline stage, identified with its process method. -/
abbrev Stage (F V : Type) := Payload F V → StageOut F V

/-- How the inner stage loop of DynamicEngine.run ends for one frame. -/
inductive FrameResult (F V : Type) where
  | completed (p : Payload F V)
  | aborted
  | raised (msg : String)
deriving DecidableEq

/-- The inner loop of DynamicEngine.run over self.pipeline_modules:
payload = module.process(payload) for each module in order, stopping at the
abort sentinel None or at a raised exception. -/
def runStages {F V : Type} : List (Stage F V) → Payload F V → FrameResult F V
  | [], p => .completed p
  | s :: rest, p =>
    match s p with
    | .ok p2 => runStages rest p2
    | .abort => .aborted
    | .exn m => .raised m

/-- The invocation record of the inner stage loop: the list of payloads
passed to the stages that were actually invoked, in invocation order
(entry i is the argument of stage i). -/
def stageTrace {F V : Type} : List (Stage F V) → Payload F V → List (Payload F V)
  | [], _ => []
  | s :: rest, p =>
    match s p with
    | .ok p2 => p :: stageTrace rest p2
    | .abort => [p]
    | .exn _ => [p]

/-- The fresh payload dict DynamicEngine.run builds per captured frame:
frame, original_frame = frame.copy(), timestamp, frame_number, meta = {}. -/
def mkPayload {F V : Type} (f : F) (t fc : Nat) : Payload F V :=
  { frame := f, original_frame := f, timestamp := t, frame_number := fc, meta := [] }

/-- One observable event of the DynamicEngine.run capture loop. -/
inductive EngineEvent (F V : Type) where
  | emptyFrame
  | frameDone (p0 : Payload F V) (res : FrameResult F V)
deriving DecidableEq

/-- DynamicEngine.run over a finite capture script.  Each script entry is one
self.camera.capture.read() outcome: none models ret = False (warn, sleep,
continue), some (f, t) a frame f captured at wall time t.  The loop body sits
inside one try block whose except clause logs the error and falls through to
cleanup, so a raised stage exception ends the whole loop.  Returns the event
list and the error message logged by that except clause, if any. -/
def engineRun {F V : Type} (stages : List (Stage F V)) :
    List (Option (F × Nat)) → Nat → List (EngineEvent F V) × Option String
  | [], _ => ([], none)
  | none :: rest, fc =>
    let r := engineRun stages rest fc
    (.emptyFrame :: r.1, r.2)
  | some (f, t) :: rest, fc =>
    let p : Payload F V := mkPayload f t fc
    match runStages stages p with
    | .raised m => ([.frameDone p (.raised m)], some m)
    | .completed p2 =>
      let r := engineRun stages rest (fc + 1)
      (.frameDone p (.completed p2) :: r.1, r.2)
    | .aborted =>
      let r := engineRun stages rest (fc + 1)
      (.frameDone p .aborted :: r.1, r.2)

/-- A stage that raises on every payload (used to probe error handling). -/
def throwingStage : Stage Nat Nat := fun _ => .exn "boom"

/-- A stage that tags the meta mapping and passes the payload on. -/
def taggingStage : Stage Nat Nat := fun p => .ok { p with meta := ("k", 1) :: p.meta }

/-- A stage that returns the abort sentinel on every payload. -/
def abortingStage : Stage Nat Nat := fun _ => .abort

/-! ## Frame heap: explicit aliasing model for buffer copies

IP_Camera.read must hand out an independent copy of the buffered frame
(ndarray .copy()).  To state freedom from aliasing we model frame storage as
a heap of cells addressed by references; .copy() allocates a fresh cell. -/

/-- A reference to a frame cell. -/
abbrev Ref := Nat

/-- A heap of frame cells; a reference is an index into the store. -/
structure Heap (F : Type) where
  store : List F
deriving DecidableEq

/-- Dereference: the value held in cell r, if r is allocated. -/
def Heap.deref {F : Type} (h : Heap F) (r : Ref) : Option F :=
  h.store[r]?

/-- Allocate a fresh cell holding value f; returns the new reference. -/
def Heap.alloc {F : Type} (h : Heap F) (f : F) : Ref × Heap F :=
  (h.store.length, ⟨h.store ++ [f]⟩)

/-- ndarray .copy(): allocate a fresh cell with the same contents as cell r
(fails only if r is dangling, which the camera never produces). -/
def Heap.copyCell {F : Type} (h : Heap F) (r : Ref) : Option (Ref × Heap F) :=
  (h.deref r).map h.alloc

/-! ## IP_Camera: src/engine/src/core/sensors/ip_camera.py -/

/-- The slice of IP_Camera state that IP_Camera.read consults: the open flag
and the single-slot buffer _last_frame (a reference into the frame heap, or
none before any frame was produced). -/
structure CamReadState where
  is_open : Bool
  last_frame : Option Ref
deriving DecidableEq

/-- IP_Camera.read: non-blocking; (False, None) when the source is closed or
the buffer was never filled, otherwise (True, copy of the buffered frame).
The heap is threaded to make the .copy() allocation explicit. -/
def IP_Camera.read {F : Type} (s : CamReadState) (h : Heap F) :
    (Bool × Option Ref) × Heap F :=
  if s.is_open = false then ((false, none), h)
  else
    match s.last_frame with
    | none => ((false, none), h)
    | some r =>
      match h.copyCell r with
      | some (r2, h2) => ((true, some r2), h2)
      | none => ((false, none), h)

/-- Default of the reconnect_interval parameter of IP_Camera init. -/
def reconnect_interval_default : Nat := 5

/-- The reader-loop state carried across iterations of IP_Camera
_reader_loop: the open flag, the loop-local consecutive read-error counter,
and the buffered last frame. -/
structure ReaderState (F : Type) where
  is_open : Bool
  read_errors : Nat
  last_frame : Option F
deriving DecidableEq

/-- Observable actions of one reader-loop iteration. -/
inductive ReaderEvent where
  | released
  | slept (secs : Nat)
  | connect_called
  | connection_lost
  | frame_buffered
deriving DecidableEq

/-- One iteration of IP_Camera._reader_loop.  The environment response env is
what the outside world answers this iteration: when the source is open it is
the capture.read() outcome (none = exception or unsuccessful read, some f = a
frame), when the source is closed it is the outcome of the connect() call made
by _reconnect (none = connect failed, some f = connected, warm-up frame f
buffered).  _reconnect releases the handle, sleeps reconnect_interval seconds
and re-invokes connect; note that it does not touch the error counter. -/
def IP_Camera.reader_iter {F : Type} (interval : Nat) (s : ReaderState F)
    (env : Option F) : ReaderState F × List ReaderEvent :=
  if s.is_open then
    match env with
    | some f => ({ s with last_frame := some f, read_errors := 0 }, [.frame_buffered])
    | none =>
      let e := s.read_errors + 1
      if 10 < e then ({ s with read_errors := e, is_open := false }, [.connection_lost])
      else ({ s with read_errors := e }, [])
  else
    match env with
    | some f =>
      ({ is_open := true, read_errors := s.read_errors, last_frame := some f },
       [.released, .slept interval, .connect_called])
    | none => (s, [.released, .slept interval, .connect_called])

/-- The reader loop run over a finite environment script, collecting events. -/
def IP_Camera.reader_run {F : Type} (interval : Nat) (s : ReaderState F) :
    List (Option F) → List ReaderEvent × ReaderState F
  | [] => ([], s)
  | env :: rest =>
    let step := IP_Camera.reader_iter interval s env
    let r := IP_Camera.reader_run interval step.1 rest
    (step.2 ++ r.1, r.2)

/-! ## FrameHealthValidator: src/engine/src/core/utils/health.py

A frame is embedded as its luminance plane: the list of gray pixel values
(the source converts BGR to gray with cv2.cvtColor before every check, so
the checks only ever see this plane).  The two numeric primitives the
repository takes from its libraries, np.log2 and the variance of the OpenCV
discrete Laplacian, are parameters of the model. -/

/-- A gray frame: the luminance plane as a flat pixel list (byte values). -/
abbrev GrayFrame := List Nat

/-- Numeric primitives supplied by numpy and OpenCV, external to the
repository: base-2 logarithm on positive rationals, and the variance of the
discrete Laplacian of a gray frame. -/
structure CvPrims where
  log2 : ℚ → ℚ
  laplacianVar : GrayFrame → ℚ

/-- The reason codes the health machinery can emit (the source carries them
as formatted strings; the code identity is what matters here). -/
inductive HealthIssue where
  | emptyFrame
  | lowEntropy
  | whiteScreen
  | blackScreen
  | blurry
  | disconnected
deriving DecidableEq

/-- The four configurable thresholds of FrameHealthValidator. -/
structure FrameHealthValidator where
  entropy_thresh : ℚ
  white_thresh : ℚ
  blur_thresh : ℚ
  black_thresh : ℚ
deriving DecidableEq

/-- The FrameHealthValidator constructor defaults:
entropy_thresh=4.0, white_thresh=0.6, blur_thresh=100.0, black_thresh=10.0. -/
def FrameHealthValidator.defaults : FrameHealthValidator :=
  { entropy_thresh := 4, white_thresh := 3 / 5, blur_thresh := 100, black_thresh := 10 }

/-- cv2.calcHist over the gray plane with 256 bins on range [0, 256):
bin i counts the pixels of intensity i. -/
def calcHist (g : GrayFrame) : List Nat :=
  (List.range 256).map fun i => (g.filter fun x => x = i).length

/-- FrameHealthValidator._calculate_entropy: normalize the histogram to a
probability vector, drop zero entries, return -(p * log2 p).sum (0.0 when
the histogram is empty). -/
def FrameHealthValidator.calculate_entropy (lib : CvPrims) (g : GrayFrame) : ℚ :=
  let hist := calcHist g
  let s : ℚ := ((hist.sum : Nat) : ℚ)
  if s ≤ 0 then 0
  else
    let p := (hist.map (fun hb => ((hb : Nat) : ℚ) / s)).filter (fun x => 0 < x)
    Neg.neg ((p.map (fun x => x * lib.log2 x)).sum)

/-- np.sum(gray > 220) / gray.size: the fraction of near-white pixels. -/
def whiteRatio (g : GrayFrame) : ℚ :=
  ((g.filter fun x => 220 < x).length : ℚ) / (g.length : ℚ)

/-- np.mean(gray): the mean luminance intensity. -/
def meanIntensity (g : GrayFrame) : ℚ :=
  ((g.sum : Nat) : ℚ) / ((g.length : Nat) : ℚ)

/-- FrameHealthValidator._check_glitch: the entropy check and the white
screen check; is_glitched is true when either fires, reasons list them in
source order. -/
def FrameHealthValidator.check_glitch (lib : CvPrims) (v : FrameHealthValidator)
    (g : GrayFrame) : Bool × List HealthIssue :=
  let entropy_val := FrameHealthValidator.calculate_entropy lib g
  let entropy_reasons : List HealthIssue :=
    if entropy_val < v.entropy_thresh then [.lowEntropy] else []
  let white_ratio := whiteRatio g
  let white_reasons : List HealthIssue :=
    if v.white_thresh < white_ratio then [.whiteScreen] else []
  let reasons := entropy_reasons ++ white_reasons
  (!reasons.isEmpty, reasons)

/-- FrameHealthValidator._check_blur: variance-of-Laplacian test. -/
def FrameHealthValidator.check_blur (lib : CvPrims) (v : FrameHealthValidator)
    (g : GrayFrame) : Bool × ℚ :=
  let laplacian_var := lib.laplacianVar g
  (decide (laplacian_var < v.blur_thresh), laplacian_var)

/-- FrameHealthValidator._check_black_screen: mean-intensity test. -/
def FrameHealthValidator.check_black_screen (v : FrameHealthValidator)
    (g : GrayFrame) : Bool × ℚ :=
  let mean_intensity := meanIntensity g
  (decide (mean_intensity < v.black_thresh), mean_intensity)

/-- FrameHealthValidator.validate: (is_healthy, reasons).  A missing or
zero-size frame short-circuits to (False, [Empty Frame]); otherwise the
glitch, black-screen and blur checks append their reasons in source order
and the frame is healthy iff the reason list is empty. -/
def FrameHealthValidator.validate (lib : CvPrims) (v : FrameHealthValidator)
    (frame : Option GrayFrame) : Bool × List HealthIssue :=
  match frame with
  | none => (false, [.emptyFrame])
  | some g =>
    if g.length = 0 then (false, [.emptyFrame])
    else
      let glitch := FrameHealthValidator.check_glitch lib v g
      let reasons := if glitch.1 then glitch.2 else []
      let black := FrameHealthValidator.check_black_screen v g
      let reasons := reasons ++ (if black.1 then [HealthIssue.blackScreen] else [])
      let blur := FrameHealthValidator.check_blur lib v g
      let reasons := reasons ++ (if blur.1 then [HealthIssue.blurry] else [])
      (decide (reasons.length = 0), reasons)

/-! ## Health monitor tick: IP_Camera._health_loop -/

/-- The connectivity threshold computed in _health_loop:
max(5.0, (1.0 / max(1.0, fps)) * 10). -/
def connectedThreshold (fps : ℚ) : ℚ :=
  max 5 ((1 / max 1 fps) * 10)

/-- Modelled from the spec wording, for comparison with connectedThreshold:
the spec states the threshold as max(5.0, 10 x 1/fps), with no clamping of
fps. -/
def specConnectedThreshold (fps : ℚ) : ℚ :=
  max 5 (10 * (1 / fps))

/-- The health flags written by one tick of IP_Camera._health_loop. -/
structure HealthState where
  is_connected : Bool
  is_corrupted : Bool
  health_issues : List HealthIssue
deriving DecidableEq

/-- One tick of IP_Camera._health_loop: classify connectivity from the
freshness now - _last_frame_time against connectedThreshold; when connected
and a buffered frame exists, run the validator on an independent copy of it;
otherwise clear the corrupted flag and report [Disconnected]. -/
def IP_Camera.health_tick (lib : CvPrims) (v : FrameHealthValidator)
    (fps now last_frame_time : ℚ) (frame_sample : Option GrayFrame) : HealthState :=
  let time_since_last_frame := now - last_frame_time
  let threshold := connectedThreshold fps
  let is_connected := decide (time_since_last_frame < threshold)
  match frame_sample with
  | some g =>
    if is_connected then
      let r := FrameHealthValidator.validate lib v (some g)
      { is_connected := is_connected, is_corrupted := !r.1, health_issues := r.2 }
    else
      { is_connected := is_connected, is_corrupted := false,
        health_issues := [.disconnected] }
  | none =>
    { is_connected := is_connected, is_corrupted := false,
      health_issues := [.disconnected] }

/-- Concrete instantiation of the library primitives, for witnesses. -/
def demoPrims : CvPrims :=
  { log2 := fun _ => 0, laplacianVar := fun _ => 200 }

/-! ## MetadataHandler: src/engine/src/database/metadata_handler.py

Python runtime values that flow into the record fields are modelled by
RawVal; the int(), float() and str() builtins become the partial coercions
pyInt, pyFloat (none = the builtin raises) and the total pyStr. -/

/-- A raw Python value as it arrives in a detection record field. -/
inductive RawVal where
  | rnone
  | rint (n : Int)
  | rfloat (q : ℚ)
  | rstr (s : String)
deriving DecidableEq

/-- Python int(x): identity on int, truncation toward zero on float,
raising (none) on None and on non-numeric strings. -/
def pyInt : RawVal → Option Int
  | .rint n => some n
  | .rfloat q => some (q.num / (q.den : Int))
  | .rstr _ => none
  | .rnone => none

/-- Python float(x): identity on float, widening on int, raising (none) on
None and on non-numeric strings. -/
def pyFloat : RawVal → Option ℚ
  | .rint n => some (n : ℚ)
  | .rfloat q => some q
  | .rstr _ => none
  | .rnone => none

/-- Python str(x): total. -/
def pyStr : RawVal → String
  | .rint n => toString n
  | .rfloat q => toString q
  | .rstr s => s
  | .rnone => "None"

/-- The per-track details dict a predictor stage places under
track_ids_info, restricted to the keys _format_metadata reads; a none field
models an absent key (dict .get default applies). -/
structure RawTrackDetails where
  track_id : Option RawVal
  bbox : List RawVal
  confidence : Option RawVal
  label_id : Option RawVal
  label_name : Option RawVal
  instance_dict : List (String × RawVal)
deriving DecidableEq

/-- A normalized per-track entry as built by _format_metadata. -/
structure FormattedTrack where
  track_id : String
  bbox : List Int
  confidence : ℚ
  label : Int
  label_name : RawVal
  instance_dict : List (String × RawVal)
deriving DecidableEq

/-- The lightweight dict MetadataHandler.process enqueues for the worker. -/
structure QueueItem where
  frame_number : Nat
  time_stamp : Nat
  track_ids_info : List (String × RawTrackDetails)
  raw_frame_path : String
  plotted_frame_path : String
  inference_time : RawVal
deriving DecidableEq

/-- The Metadata mongoengine document with the fields its schema declares
(src/engine/src/database/schemas/metadata_schema.py): note device_name, not
device. -/
structure Metadata where
  frame_number : Nat
  time_stamp : Nat
  raw_frame_path : String
  plotted_frame_path : String
  device_name : String
  inference_time : ℚ
  track_ids_info : List (String × FormattedTrack)
deriving DecidableEq

/-- The field names the Metadata schema declares
(metadata_schema.py lines 3-27). -/
def Metadata.schema_fields : List String :=
  ["frame_number", "time_stamp", "raw_frame_path", "plotted_frame_path",
   "device_name", "inference_time", "track_ids_info"]

/-- A Python comprehension over an Option-producing body: the first failure
aborts the whole comprehension (the exception propagates). -/
def mapOption {α β : Type} (f : α → Option β) : List α → Option (List β)
  | [] => some []
  | a :: l =>
    match f a, mapOption f l with
    | some b, some l2 => some (b :: l2)
    | _, _ => none

/-- The body of the per-track loop in MetadataHandler._format_metadata:
bbox entries through int(), confidence through float() with default 0.0,
label_id through int() with default 0, track_id through str(), label_name
defaulted to unknown, instance_dict carried through. -/
def formatTrack (d : RawTrackDetails) : Option FormattedTrack :=
  match mapOption pyInt d.bbox with
  | none => none
  | some bbox =>
    match pyFloat (d.confidence.getD (.rfloat 0)) with
    | none => none
    | some conf =>
      match pyInt (d.label_id.getD (.rint 0)) with
      | none => none
      | some lab =>
        some { track_id := pyStr (d.track_id.getD .rnone), bbox := bbox,
               confidence := conf, label := lab,
               label_name := d.label_name.getD (.rstr "unknown"),
               instance_dict := d.instance_dict }

/-- The static configuration of a MetadataHandler instance; device_id
comes from config.get, so none models an absent key. -/
structure HandlerCfg where
  batch_size : Nat
  flush_interval : ℚ
  device_id : Option String
  device_name : String
deriving DecidableEq

/-- MetadataHandler.__init__ reading its config dict: buffer_size defaults
to 100, flush_interval to 5, deviceName to unknown. -/
def MetadataHandler.init (buffer_size : Option Nat) (flush_interval : Option ℚ)
    (device_id : Option String) (deviceName : Option String) : HandlerCfg :=
  { batch_size := buffer_size.getD 100, flush_interval := flush_interval.getD 5,
    device_id := device_id, device_name := deviceName.getD "unknown" }

/-- The device field _format_metadata fills: device_id if truthy (a Python
string is falsy when empty), else device_name. -/
def deviceOf (cfg : HandlerCfg) : String :=
  match cfg.device_id with
  | some s => if s.isEmpty then cfg.device_name else s
  | none => cfg.device_name

/-- The keyword arguments of the Metadata(...) constructor call in
_format_metadata, with the names as written at that call site
(metadata_handler.py lines 136-144): the device value travels under the
keyword device. -/
structure MetadataCtorKwargs where
  frame_number : Nat
  time_stamp : Nat
  raw_frame_path : String
  plotted_frame_path : String
  device : String
  inference_time : ℚ
  track_ids_info : List (String × FormattedTrack)
deriving DecidableEq

/-- The keyword names of that constructor call. -/
def MetadataCtorKwargs.names : List String :=
  ["frame_number", "time_stamp", "raw_frame_path", "plotted_frame_path",
   "device", "inference_time", "track_ids_info"]

/-- mongoengine Document construction: __init__ raises FieldDoesNotExist
(here none) when a passed keyword is not a declared schema field.  The
success branch places each keyword value in its schema slot; the device
keyword has no declared slot (it was presumably meant for device_name, the
slot shown here), and indeed the keyword check never lets this call
succeed. -/
def Metadata.construct (kw : MetadataCtorKwargs) : Option Metadata :=
  if MetadataCtorKwargs.names.all
      (fun k => decide (k ∈ Metadata.schema_fields)) = true then
    some { frame_number := kw.frame_number, time_stamp := kw.time_stamp,
           raw_frame_path := kw.raw_frame_path,
           plotted_frame_path := kw.plotted_frame_path,
           device_name := kw.device, inference_time := kw.inference_time,
           track_ids_info := kw.track_ids_info }
  else none

/-- MetadataHandler._format_metadata: normalize every track entry, then
construct the Metadata document.  A coercion failure makes the record none;
so does the constructor call itself, whose device keyword the schema does
not declare — the raise lands in the surrounding except branch, which logs
and returns None. -/
def MetadataHandler.format_metadata (cfg : HandlerCfg) (item : QueueItem) :
    Option Metadata :=
  match mapOption (fun kv =>
      (formatTrack kv.2).map (fun ft => (kv.1, ft))) item.track_ids_info with
  | none => none
  | some tracks =>
    match pyFloat item.inference_time with
    | none => none
    | some inf =>
      Metadata.construct
        { frame_number := item.frame_number, time_stamp := item.time_stamp,
          raw_frame_path := item.raw_frame_path,
          plotted_frame_path := item.plotted_frame_path,
          device := deviceOf cfg, inference_time := inf,
          track_ids_info := tracks }

/-- The poll timeout of the worker queue.get call, in seconds. -/
def queue_poll_timeout : ℚ := 1

/-- The worker-loop state carried across iterations of _batch_worker. -/
structure WorkerState where
  buffer : List Metadata
  last_flush_time : ℚ
deriving DecidableEq

/-- Observable actions of one worker iteration. -/
inductive WorkerEvent where
  | bulk_insert (batch : List Metadata) (ok : Bool)
  | insert_error_logged
deriving DecidableEq

/-- MetadataHandler._flush_to_db: one bulk insert of the whole buffer;
insertOk tells whether the store accepted it; on failure the error is
logged and the exception swallowed (the batch is lost either way). -/
def MetadataHandler.flush_to_db (buffer : List Metadata) (insertOk : Bool) :
    List WorkerEvent :=
  if insertOk then [.bulk_insert buffer true]
  else [.bulk_insert buffer false, .insert_error_logged]

/-- The buffer after the poll phase of one _batch_worker iteration: a queue
item that formats successfully is appended, a failing one is dropped, an
empty poll (queue.Empty after the 1 s timeout) leaves the buffer alone. -/
def bufferAfterPoll (cfg : HandlerCfg) (s : WorkerState)
    (poll : Option QueueItem) : List Metadata :=
  match poll with
  | none => s.buffer
  | some item =>
    match MetadataHandler.format_metadata cfg item with
    | some m => s.buffer ++ [m]
    | none => s.buffer

/-- One iteration of MetadataHandler._batch_worker: poll the queue with the
1 s timeout, then flush exactly when the buffer is non-empty and it is full
(len >= batch_size) or stale (now - last_flush_time >= flush_interval);
a flush bulk-inserts once, clears the buffer and restamps last_flush_time. -/
def MetadataHandler.worker_iter (cfg : HandlerCfg) (s : WorkerState)
    (poll : Option QueueItem) (now : ℚ) (insertOk : Bool) :
    WorkerState × List WorkerEvent :=
  let buffer := bufferAfterPoll cfg s poll
  let time_since_flush := now - s.last_flush_time
  let is_buffer_full := cfg.batch_size ≤ buffer.length
  let is_time_up := cfg.flush_interval ≤ time_since_flush
  if buffer ≠ [] ∧ (is_buffer_full ∨ is_time_up) then
    ({ buffer := [], last_flush_time := now },
     MetadataHandler.flush_to_db buffer insertOk)
  else
    ({ buffer := buffer, last_flush_time := s.last_flush_time }, [])

/-- The payload meta mapping restricted to the keys MetadataHandler.process
reads; none models an absent key. -/
structure MetaMap where
  track_ids_info : Option (List (String × RawTrackDetails))
  raw_frame_path : Option String
  plotted_frame_path : Option String
  inference_time : Option RawVal
deriving DecidableEq

/-- The payload as seen by MetadataHandler.process. -/
structure MPayload (F : Type) where
  frame : F
  original_frame : F
  timestamp : Nat
  frame_number : Nat
  meta : MetaMap
deriving DecidableEq

/-- The queue item process builds from a payload whose track_ids_info is
truthy (paths default to the empty string, inference_time to 0.0). -/
def mkQueueItem {F : Type} (payload : MPayload F)
    (t : List (String × RawTrackDetails)) : QueueItem :=
  { frame_number := payload.frame_number, time_stamp := payload.timestamp,
    track_ids_info := t,
    raw_frame_path := payload.meta.raw_frame_path.getD "",
    plotted_frame_path := payload.meta.plotted_frame_path.getD "",
    inference_time := payload.meta.inference_time.getD (.rfloat 0) }

/-- MetadataHandler.process: read meta track_ids_info; when truthy (present
and non-empty) enqueue a lightweight item for the worker; always return the
payload itself (the Option result mirrors the payload-or-None stage
convention of the engine). -/
def MetadataHandler.process {F : Type} (q : List QueueItem)
    (payload : MPayload F) : List QueueItem × Option (MPayload F) :=
  match payload.meta.track_ids_info with
  | some t =>
    if t.isEmpty then (q, some payload)
    else (q ++ [mkQueueItem payload t], some payload)
  | none => (q, some payload)

/-! ## Concrete demo data for witnesses -/

/-- A concrete handler configuration (all config keys absent except the
injected deviceName). -/
def demoCfg : HandlerCfg := MetadataHandler.init none none none (some "cam-07")

/-- Concrete raw track details mixing int and float coordinates. -/
def demoDetails : RawTrackDetails :=
  { track_id := some (.rstr "5"), bbox := [.rint 10, .rint 20, .rfloat 30, .rint 40],
    confidence := some (.rfloat 1), label_id := some (.rint 2),
    label_name := some (.rstr "person"),
    instance_dict := [("zone1", .rstr "inside")] }

/-- The queue item carrying demoDetails. -/
def demoItem : QueueItem :=
  { frame_number := 9, time_stamp := 100, track_ids_info := [("5", demoDetails)],
    raw_frame_path := "raw.jpg", plotted_frame_path := "plot.jpg",
    inference_time := .rfloat 2 }

/-- The normalized form of demoDetails. -/
def demoFormatted : FormattedTrack :=
  { track_id := "5", bbox := [10, 20, 30, 40], confidence := 1, label := 2,
    label_name := .rstr "person", instance_dict := [("zone1", .rstr "inside")] }

/-- A concrete metadata document, used as buffer contents in witnesses. -/
def demoMetadata : Metadata :=
  { frame_number := 9, time_stamp := 100, raw_frame_path := "raw.jpg",
    plotted_frame_path := "plot.jpg", device_name := "cam-07",
    inference_time := 2, track_ids_info := [("5", demoFormatted)] }

/-- A payload whose meta holds demoDetails under track_ids_info. -/
def demoMPayload : MPayload Nat :=
  { frame := 1, original_frame := 1, timestamp := 100, frame_number := 9,
    meta := { track_ids_info := some [("5", demoDetails)],
              raw_frame_path := some "raw.jpg",
              plotted_frame_path := some "plot.jpg",
              inference_time := some (.rfloat 2) } }

/-! ## Helper lemmas on the stage loop -/

theorem stageTrace_get_zero {F V : Type} (stages : List (Stage F V))
    (p q : Payload F V) (h : (stageTrace stages p)[0]? = some q) : q = p := by
  cases stages with
  | nil => simp [stageTrace] at h
  | cons s rest =>
    cases h0 : s p <;> simp [stageTrace, h0] at h <;> exact h.symm

theorem stageTrace_ne_nil {F V : Type} (s : Stage F V) (rest : List (Stage F V))
    (p : Payload F V) : stageTrace (s :: rest) p ≠ [] := by
  cases h0 : s p <;> simp [stageTrace, h0]

theorem stageTrace_chain {F V : Type} :
    ∀ (stages : List (Stage F V)) (p : Payload F V) (i : Nat)
      (p₁ p₂ : Payload F V) (s : Stage F V),
      (stageTrace stages p)[i]? = some p₁ →
      (stageTrace stages p)[i + 1]? = some p₂ →
      stages[i]? = some s → s p₁ = StageOut.ok p₂
  | [], p, i, p₁, p₂, s => by simp [stageTrace]
  | s0 :: rest, p, i, p₁, p₂, s => by
    intro h1 h2 hs
    cases h0 : s0 p with
    | ok p' =>
      rw [show stageTrace (s0 :: rest) p = p :: stageTrace rest p' by
        simp [stageTrace, h0]] at h1 h2
      cases i with
      | zero =>
        simp only [List.getElem?_cons_zero, Option.some.injEq] at h1 hs
        simp only [List.getElem?_cons_succ] at h2
        rw [← h1, ← hs, h0]
        have := stageTrace_get_zero rest p' p₂ h2
        rw [this]
      | succ i' =>
        simp only [List.getElem?_cons_succ] at h1 h2 hs
        exact stageTrace_chain rest p' i' p₁ p₂ s h1 h2 hs
    | abort =>
      rw [show stageTrace (s0 :: rest) p = [p] by simp [stageTrace, h0]] at h1 h2
      cases i with
      | zero => simp at h2
      | succ i' => simp at h1
    | exn m =>
      rw [show stageTrace (s0 :: rest) p = [p] by simp [stageTrace, h0]] at h1 h2
      cases i with
      | zero => simp at h2
      | succ i' => simp at h1

theorem stageTrace_length_completed {F V : Type} :
    ∀ (stages : List (Stage F V)) (p p2 : Payload F V),
      runStages stages p = .completed p2 →
      (stageTrace stages p).length = stages.length
  | [], p, p2, _ => by simp [stageTrace]
  | s0 :: rest, p, p2, h => by
    cases h0 : s0 p with
    | ok p' =>
      simp only [runStages, h0] at h
      simp only [stageTrace, h0, List.length_cons]
      rw [stageTrace_length_completed rest p' p2 h]
    | abort => simp [runStages, h0] at h
    | exn m => simp [runStages, h0] at h

theorem stageTrace_aborted {F V : Type} :
    ∀ (stages : List (Stage F V)) (p : Payload F V),
      runStages stages p = .aborted →
      ∃ k s pk, stages[k]? = some s ∧ (stageTrace stages p)[k]? = some pk ∧
        s pk = StageOut.abort ∧ (stageTrace stages p).length = k + 1
  | [], p, h => by simp [runStages] at h
  | s0 :: rest, p, h => by
    cases h0 : s0 p with
    | ok p' =>
      simp only [runStages, h0] at h
      obtain ⟨k, s, pk, hk, htr, hab, hlen⟩ := stageTrace_aborted rest p' h
      refine ⟨k + 1, s, pk, ?_, ?_, hab, ?_⟩
      · simpa using hk
      · rw [show stageTrace (s0 :: rest) p = p :: stageTrace rest p' by
          simp [stageTrace, h0]]
        simpa using htr
      · rw [show stageTrace (s0 :: rest) p = p :: stageTrace rest p' by
          simp [stageTrace, h0]]
        simp [hlen]
    | abort =>
      exact ⟨0, s0, p, by simp, by simp [stageTrace, h0], h0, by simp [stageTrace, h0]⟩
    | exn m => simp [runStages, h0] at h

/-! ## C1 -/

/-- Claim C1, counterexample: with a single stage that raises and a capture
script holding two good frames, DynamicEngine.run logs the error and stops;
the event list is just frame 0, so no subsequent frame (frame number 1) is
captured or pushed through the pipeline, contrary to the claim that a stage
exception is fatal to the current frame only. -/
theorem stage_exception_kills_loop_cex :
    runStages [throwingStage] (mkPayload 1 0 0) = .raised "boom" ∧
    (engineRun [throwingStage] [some (1, 0), some (2, 1)] 0).1 =
      [EngineEvent.frameDone (mkPayload 1 0 0) (.raised "boom")] ∧
    ∀ p r, EngineEvent.frameDone p r ∈
        (engineRun [throwingStage] [some (1, 0), some (2, 1)] 0).1 →
      p.frame_number = 0 := by
  refine ⟨rfl, rfl, ?_⟩
  intro p r hmem
  rw [show (engineRun [throwingStage] [some (1, 0), some (2, 1)] 0).1 =
    [EngineEvent.frameDone (mkPayload 1 0 0) (.raised "boom")] from rfl] at hmem
  simp at hmem
  rw [hmem.1]
  rfl

/-- Claim C1 (amended): a stage exception is fatal to the whole run, not to
the current frame only: DynamicEngine.run records the error and exits the
capture loop, so no later capture of the script is processed. -/
theorem stage_exception_terminates_run {F V : Type} (stages : List (Stage F V))
    (f : F) (t fc : Nat) (rest : List (Option (F × Nat))) (msg : String)
    (h : runStages stages (mkPayload f t fc) = .raised msg) :
    engineRun stages (some (f, t) :: rest) fc =
      ([EngineEvent.frameDone (mkPayload f t fc) (.raised msg)], some msg) := by
  simp [engineRun, h]

/-- Witness for the amended C1 at a concrete raising pipeline. -/
theorem stage_exception_terminates_run_witness :
    engineRun [throwingStage] [some (1, 0), some (2, 1)] 0 =
      ([EngineEvent.frameDone (mkPayload 1 0 0) (.raised "boom")], some "boom") :=
  stage_exception_terminates_run [throwingStage] 1 0 0 [some (2, 1)] "boom" rfl

/-! ## C2 -/

/-- Claim C2: per captured frame the engine builds the fresh payload (frame,
original-frame copy, timestamp, frame number, empty meta), the stages are
invoked in descriptor order exactly once with each returned payload replacing
the current one, and an abort sentinel stops later stages while the loop
proceeds to the next capture. -/
theorem pipeline_order_and_fresh_payload {F V : Type} (stages : List (Stage F V))
    (f : F) (t fc : Nat) (rest : List (Option (F × Nat))) :
    (((mkPayload f t fc : Payload F V)).frame = f ∧
      ((mkPayload f t fc : Payload F V)).original_frame = f ∧
      ((mkPayload f t fc : Payload F V)).timestamp = t ∧
      ((mkPayload f t fc : Payload F V)).frame_number = fc ∧
      ((mkPayload f t fc : Payload F V)).meta = []) ∧
    (stages ≠ [] →
      (stageTrace stages (mkPayload f t fc))[0]? = some (mkPayload f t fc)) ∧
    (∀ i p₁ p₂ s, (stageTrace stages (mkPayload f t fc))[i]? = some p₁ →
      (stageTrace stages (mkPayload f t fc))[i + 1]? = some p₂ →
      stages[i]? = some s → s p₁ = StageOut.ok p₂) ∧
    (∀ p2, runStages stages (mkPayload f t fc) = .completed p2 →
      (stageTrace stages (mkPayload f t fc)).length = stages.length) ∧
    (runStages stages (mkPayload f t fc) = .aborted →
      ∃ k s pk, stages[k]? = some s ∧
        (stageTrace stages (mkPayload f t fc))[k]? = some pk ∧
        s pk = StageOut.abort ∧
        (stageTrace stages (mkPayload f t fc)).length = k + 1) ∧
    (∀ p2, runStages stages (mkPayload f t fc) = .completed p2 →
      engineRun stages (some (f, t) :: rest) fc =
        (EngineEvent.frameDone (mkPayload f t fc) (.completed p2) ::
          (engineRun stages rest (fc + 1)).1,
         (engineRun stages rest (fc + 1)).2)) ∧
    (runStages stages (mkPayload f t fc) = .aborted →
      engineRun stages (some (f, t) :: rest) fc =
        (EngineEvent.frameDone (mkPayload f t fc) .aborted ::
          (engineRun stages rest (fc + 1)).1,
         (engineRun stages rest (fc + 1)).2)) := by
  refine ⟨⟨rfl, rfl, rfl, rfl, rfl⟩, ?_, ?_, ?_, ?_, ?_, ?_⟩
  · intro hne
    cases stages with
    | nil => exact absurd rfl hne
    | cons s rest' =>
      cases h0 : s (mkPayload f t fc) <;> simp [stageTrace, h0]
  · intro i p₁ p₂ s h1 h2 hs
    exact stageTrace_chain stages (mkPayload f t fc) i p₁ p₂ s h1 h2 hs
  · intro p2 h
    exact stageTrace_length_completed stages (mkPayload f t fc) p2 h
  · intro h
    exact stageTrace_aborted stages (mkPayload f t fc) h
  · intro p2 h
    simp [engineRun, h]
  · intro h
    simp [engineRun, h]

/-- Witness for C2 at a concrete two-stage pipeline that aborts at stage 1. -/
theorem pipeline_order_and_fresh_payload_witness :
    ((mkPayload 7 3 0 : Payload Nat Nat)).meta = [] ∧
    (stageTrace [taggingStage, abortingStage] (mkPayload 7 3 0))[0]? =
      some (mkPayload 7 3 0) ∧
    (∃ k s pk, [taggingStage, abortingStage][k]? = some s ∧
      (stageTrace [taggingStage, abortingStage] (mkPayload 7 3 0))[k]? = some pk ∧
      s pk = StageOut.abort ∧
      (stageTrace [taggingStage, abortingStage] (mkPayload 7 3 0)).length = k + 1) ∧
    engineRun [taggingStage, abortingStage] [some (7, 3)] 0 =
      (EngineEvent.frameDone (mkPayload 7 3 0) .aborted ::
        (engineRun [taggingStage, abortingStage] ([] : List (Option (Nat × Nat))) 1).1,
       (engineRun [taggingStage, abortingStage] ([] : List (Option (Nat × Nat))) 1).2) := by
  have h := pipeline_order_and_fresh_payload [taggingStage, abortingStage] 7 3 0
    ([] : List (Option (Nat × Nat)))
  exact ⟨h.1.2.2.2.2, h.2.1 (by simp), h.2.2.2.2.1 rfl, h.2.2.2.2.2.2 rfl⟩

/-! ## C3 -/

/-- Claim C3: a successful read resets the consecutive-failure counter and
buffers the frame; an exception or unsuccessful read counts one failure; the
source is marked closed exactly when the count passes 10; and the iteration
after the closing failure releases the handle, waits reconnect_interval
seconds (default 5) and re-invokes connect. -/
theorem reader_reconnect_protocol {F : Type} (interval : Nat) (s : ReaderState F)
    (f : F) (env2 : Option F) (rest : List (Option F)) :
    (s.is_open = true →
      IP_Camera.reader_iter interval s (some f) =
        ({ s with last_frame := some f, read_errors := 0 },
         [ReaderEvent.frame_buffered])) ∧
    (s.is_open = true →
      (IP_Camera.reader_iter interval s none).1.read_errors = s.read_errors + 1) ∧
    (s.is_open = true →
      ((IP_Camera.reader_iter interval s none).1.is_open = false ↔
        10 < s.read_errors + 1)) ∧
    (s.is_open = true → 10 ≤ s.read_errors →
      (IP_Camera.reader_run interval s (none :: env2 :: rest)).1 =
        ReaderEvent.connection_lost :: ReaderEvent.released ::
          ReaderEvent.slept interval :: ReaderEvent.connect_called ::
          (IP_Camera.reader_run interval
            (IP_Camera.reader_iter interval
              (IP_Camera.reader_iter interval s none).1 env2).1 rest).1) ∧
    reconnect_interval_default = 5 := by
  refine ⟨?_, ?_, ?_, ?_, rfl⟩
  · intro ho
    simp [IP_Camera.reader_iter, ho]
  · intro ho
    by_cases h10 : 10 < s.read_errors + 1 <;>
      simp [IP_Camera.reader_iter, ho, h10]
  · intro ho
    by_cases h10 : 10 < s.read_errors + 1 <;>
      simp [IP_Camera.reader_iter, ho, h10]
  · intro ho h10
    have h1 : IP_Camera.reader_iter interval s none =
        ({ s with read_errors := s.read_errors + 1, is_open := false },
         [ReaderEvent.connection_lost]) := by
      simp [IP_Camera.reader_iter, ho, Nat.lt_succ_of_le h10]
    have h2 : (IP_Camera.reader_iter interval
        ({ s with read_errors := s.read_errors + 1, is_open := false } :
          ReaderState F) env2).2 =
        [ReaderEvent.released, ReaderEvent.slept interval,
         ReaderEvent.connect_called] := by
      cases env2 <;> simp [IP_Camera.reader_iter]
    simp only [IP_Camera.reader_run, h1]
    rw [h2]
    rfl

/-- Witness for C3: an open source with ten consecutive failures already
counted takes one more failed read, loses the connection and reconnects. -/
theorem reader_reconnect_protocol_witness :
    IP_Camera.reader_iter 5 (⟨true, 10, none⟩ : ReaderState Nat) (some 7) =
      (⟨true, 0, some 7⟩, [ReaderEvent.frame_buffered]) ∧
    (IP_Camera.reader_run 5 (⟨true, 10, none⟩ : ReaderState Nat)
        [none, some 7]).1 =
      [ReaderEvent.connection_lost, ReaderEvent.released, ReaderEvent.slept 5,
       ReaderEvent.connect_called] := by
  have h := reader_reconnect_protocol 5 (⟨true, 10, none⟩ : ReaderState Nat) 7
    (some 7) []
  refine ⟨h.1 rfl, ?_⟩
  rw [h.2.2.2.1 rfl (by decide)]
  rfl

/-! ## C4 -/

theorem health_tick_is_connected (lib : CvPrims) (v : FrameHealthValidator)
    (fps now last_frame_time : ℚ) (frame_sample : Option GrayFrame) :
    (IP_Camera.health_tick lib v fps now last_frame_time
        frame_sample).is_connected =
      decide (now - last_frame_time < connectedThreshold fps) := by
  cases frame_sample with
  | none => rfl
  | some g =>
    simp only [IP_Camera.health_tick]
    split <;> rfl

/-- Claim C4, counterexample: at fps = 1/2 the code clamps fps to 1 and uses
threshold 10, while the claimed threshold max(5, 10 x 1/fps) would be 20; at
freshness 15 the code classifies the source as disconnected although the
claimed threshold would classify it as connected. -/
theorem freshness_threshold_cex :
    connectedThreshold (1 / 2) = 10 ∧
    specConnectedThreshold (1 / 2) = 20 ∧
    (IP_Camera.health_tick demoPrims FrameHealthValidator.defaults (1 / 2)
      15 0 none).is_connected = false ∧
    (15 : ℚ) - 0 < specConnectedThreshold (1 / 2) := by
  have hthr : connectedThreshold (1 / 2 : ℚ) = 10 := by
    rw [connectedThreshold, max_def, max_def]
    norm_num
  have hspec : specConnectedThreshold (1 / 2 : ℚ) = 20 := by
    rw [specConnectedThreshold, max_def]
    norm_num
  refine ⟨hthr, hspec, ?_, by rw [hspec]; norm_num⟩
  rw [health_tick_is_connected, hthr, decide_eq_false_iff_not]
  norm_num

/-- Claim C4 (amended): on each health tick the source is classified as
connected exactly when the freshness now - last_frame_time is below
max(5.0, 10 x 1 / max(1.0, fps)) seconds; the code clamps fps from below
at 1.0 before taking the reciprocal. -/
theorem freshness_threshold_classification (lib : CvPrims)
    (v : FrameHealthValidator) (fps now last_frame_time : ℚ)
    (frame_sample : Option GrayFrame) (_hfps : 0 ≤ fps) :
    (IP_Camera.health_tick lib v fps now last_frame_time
        frame_sample).is_connected = true ↔
      now - last_frame_time < max 5 ((1 / max 1 fps) * 10) := by
  rw [health_tick_is_connected, connectedThreshold, decide_eq_true_eq]

/-- Witness for the amended C4 at fps 25, freshness 1. -/
theorem freshness_threshold_classification_witness :
    (0 : ℚ) ≤ 25 ∧
    (IP_Camera.health_tick demoPrims FrameHealthValidator.defaults 25
        100 99 none).is_connected = true := by
  refine ⟨by norm_num, ?_⟩
  rw [freshness_threshold_classification demoPrims FrameHealthValidator.defaults
    25 100 99 none (by norm_num)]
  rw [max_def, max_def]
  norm_num

/-! ## C10 -/

/-- Claim C10: after a health tick, a disconnected classification forces
is_corrupted = false and health_issues = [Disconnected]; the corrupted flag
and the image-check reason codes only ever arise when the source is
classified connected and a buffered frame sample exists. -/
theorem health_state_invariant (lib : CvPrims) (v : FrameHealthValidator)
    (fps now last_frame_time : ℚ) (frame_sample : Option GrayFrame) :
    ((IP_Camera.health_tick lib v fps now last_frame_time
        frame_sample).is_connected = false →
      (IP_Camera.health_tick lib v fps now last_frame_time
        frame_sample).is_corrupted = false ∧
      (IP_Camera.health_tick lib v fps now last_frame_time
        frame_sample).health_issues = [HealthIssue.disconnected]) ∧
    ((IP_Camera.health_tick lib v fps now last_frame_time
        frame_sample).is_corrupted = true →
      (IP_Camera.health_tick lib v fps now last_frame_time
        frame_sample).is_connected = true ∧ frame_sample.isSome = true) ∧
    (∀ issue ∈ (IP_Camera.health_tick lib v fps now last_frame_time
        frame_sample).health_issues,
      issue ≠ HealthIssue.disconnected →
      (IP_Camera.health_tick lib v fps now last_frame_time
        frame_sample).is_connected = true ∧ frame_sample.isSome = true) := by
  cases frame_sample with
  | none => simp [IP_Camera.health_tick]
  | some g =>
    simp only [IP_Camera.health_tick]
    rcases hb : decide (now - last_frame_time < connectedThreshold fps) with _ | _ <;>
      simp [hb]

/-- Witness for C10 at a stale tick: disconnected, not corrupted, with the
single Disconnected issue. -/
theorem health_state_invariant_witness :
    (IP_Camera.health_tick demoPrims FrameHealthValidator.defaults 25
        100 0 none).is_corrupted = false ∧
    (IP_Camera.health_tick demoPrims FrameHealthValidator.defaults 25
        100 0 none).health_issues = [HealthIssue.disconnected] := by
  have h := health_state_invariant demoPrims FrameHealthValidator.defaults 25
    100 0 none
  refine h.1 ?_
  rw [health_tick_is_connected, decide_eq_false_iff_not, connectedThreshold,
    max_def, max_def]
  norm_num

/-! ## C5 -/

theorem demoPrims_entropy (g : GrayFrame) :
    FrameHealthValidator.calculate_entropy demoPrims g = 0 := by
  rw [FrameHealthValidator.calculate_entropy]
  split
  · rfl
  · simp [demoPrims]

/-- Claim C5: validate is healthy iff no reason code fires, and the reason
codes are exactly empty frame, low entropy (below entropy_thresh), white
screen (ratio above white_thresh), black screen (mean below black_thresh)
and blur (Laplacian variance below blur_thresh); the thresholds are
construction parameters whose defaults are 4.0, 0.6, 10.0 and 100.0. -/
theorem validator_reason_codes (lib : CvPrims) (v : FrameHealthValidator)
    (frame : Option GrayFrame) :
    ((FrameHealthValidator.validate lib v frame).1 = true ↔
      (FrameHealthValidator.validate lib v frame).2 = []) ∧
    (FrameHealthValidator.defaults.entropy_thresh = 4 ∧
      FrameHealthValidator.defaults.white_thresh = 3 / 5 ∧
      FrameHealthValidator.defaults.black_thresh = 10 ∧
      FrameHealthValidator.defaults.blur_thresh = 100) ∧
    ((frame = none ∨ frame = some []) →
      (FrameHealthValidator.validate lib v frame).2 = [HealthIssue.emptyFrame]) ∧
    (∀ g, frame = some g → g ≠ [] →
      (HealthIssue.lowEntropy ∈ (FrameHealthValidator.validate lib v frame).2 ↔
        FrameHealthValidator.calculate_entropy lib g < v.entropy_thresh) ∧
      (HealthIssue.whiteScreen ∈ (FrameHealthValidator.validate lib v frame).2 ↔
        v.white_thresh < whiteRatio g) ∧
      (HealthIssue.blackScreen ∈ (FrameHealthValidator.validate lib v frame).2 ↔
        meanIntensity g < v.black_thresh) ∧
      (HealthIssue.blurry ∈ (FrameHealthValidator.validate lib v frame).2 ↔
        lib.laplacianVar g < v.blur_thresh) ∧
      HealthIssue.emptyFrame ∉ (FrameHealthValidator.validate lib v frame).2 ∧
      HealthIssue.disconnected ∉ (FrameHealthValidator.validate lib v frame).2) := by
  refine ⟨?_, ⟨rfl, rfl, rfl, rfl⟩, ?_, ?_⟩
  · cases frame with
    | none => simp [FrameHealthValidator.validate]
    | some g =>
      by_cases hg : g.length = 0
      · simp [FrameHealthValidator.validate, hg]
      · simp only [FrameHealthValidator.validate, hg, if_false]
        rw [decide_eq_true_eq]
        exact List.length_eq_zero
  · rintro (rfl | rfl)
    · simp [FrameHealthValidator.validate]
    · simp [FrameHealthValidator.validate]
  · rintro g rfl hg
    have hlen : ¬ g.length = 0 := by simpa [List.length_eq_zero] using hg
    by_cases h1 : FrameHealthValidator.calculate_entropy lib g < v.entropy_thresh <;>
      by_cases h2 : v.white_thresh < whiteRatio g <;>
      by_cases h3 : meanIntensity g < v.black_thresh <;>
      by_cases h4 : lib.laplacianVar g < v.blur_thresh <;>
      simp [FrameHealthValidator.validate, FrameHealthValidator.check_glitch,
        FrameHealthValidator.check_black_screen, FrameHealthValidator.check_blur,
        hlen, h1, h2, h3, h4]

/-- Witness for C5: a nonempty frame whose only firing reason (under the
concrete primitives) is low entropy. -/
theorem validator_reason_codes_witness :
    HealthIssue.lowEntropy ∈
      (FrameHealthValidator.validate demoPrims FrameHealthValidator.defaults
        (some [50])).2 ∧
    HealthIssue.disconnected ∉
      (FrameHealthValidator.validate demoPrims FrameHealthValidator.defaults
        (some [50])).2 := by
  have h := (validator_reason_codes demoPrims FrameHealthValidator.defaults
    (some [50])).2.2.2 [50] rfl (by simp)
  refine ⟨h.1.mpr ?_, h.2.2.2.2.2⟩
  rw [demoPrims_entropy]
  norm_num [FrameHealthValidator.defaults]

/-! ## C6 -/

/-- Claim C6: IP_Camera.read returns (False, None) whenever the source is
closed or no frame was ever buffered; otherwise it returns True together
with a fresh copy of the buffered frame: same contents, a different cell,
and the buffer cell itself is untouched. -/
theorem read_copy_semantics {F : Type} (s : CamReadState) (h : Heap F) :
    (s.is_open = false → IP_Camera.read s h = ((false, none), h)) ∧
    (s.last_frame = none → IP_Camera.read s h = ((false, none), h)) ∧
    (∀ r, s.is_open = true → s.last_frame = some r → r < h.store.length →
      ∃ r2 h2, IP_Camera.read s h = ((true, some r2), h2) ∧
        h2.deref r2 = h.deref r ∧ r2 ≠ r ∧ h2.deref r = h.deref r) := by
  refine ⟨?_, ?_, ?_⟩
  · intro hc
    simp [IP_Camera.read, hc]
  · intro hn
    cases ho : s.is_open <;> simp [IP_Camera.read, ho, hn]
  · intro r ho hr hlt
    have hf : h.store[r]? = some (h.store.get ⟨r, hlt⟩) := by
      rw [List.getElem?_eq_getElem hlt]
      rfl
    refine ⟨h.store.length, ⟨h.store ++ [h.store.get ⟨r, hlt⟩]⟩, ?_, ?_, ?_, ?_⟩
    · simp [IP_Camera.read, ho, hr, Heap.copyCell, Heap.deref, Heap.alloc, hf]
    · rw [Heap.deref, Heap.deref, hf]
      exact List.getElem?_concat_length h.store (h.store.get ⟨r, hlt⟩)
    · exact Nat.ne_of_gt hlt
    · rw [Heap.deref, Heap.deref, List.getElem?_append, if_pos hlt]

/-- Witness for C6 on a one-cell heap holding the buffered frame. -/
theorem read_copy_semantics_witness :
    ∃ r2 h2, IP_Camera.read (⟨true, some 0⟩ : CamReadState)
        (⟨[42]⟩ : Heap Nat) = ((true, some r2), h2) ∧
      h2.deref r2 = Heap.deref (⟨[42]⟩ : Heap Nat) 0 ∧ r2 ≠ 0 ∧
      h2.deref 0 = Heap.deref (⟨[42]⟩ : Heap Nat) 0 :=
  (read_copy_semantics (⟨true, some 0⟩ : CamReadState)
    (⟨[42]⟩ : Heap Nat)).2.2 0 rfl rfl (by decide)

/-! ## C7 -/

/-- Claim C7: one worker iteration flushes exactly when the buffer (after
the 1-second-timeout poll) is non-empty and is either full (size at or above
batch_size) or stale (at least flush_interval seconds since the last flush);
a flush is one bulk insert of the whole batch, clears the buffer and
restamps the flush time; on insert failure the batch is logged and discarded
while the worker continues; the defaults are batch 100, interval 5, poll 1. -/
theorem worker_flush_policy (cfg : HandlerCfg) (s : WorkerState)
    (poll : Option QueueItem) (now : ℚ) (insertOk : Bool) :
    (bufferAfterPoll cfg s poll ≠ [] ∧
        (cfg.batch_size ≤ (bufferAfterPoll cfg s poll).length ∨
          cfg.flush_interval ≤ now - s.last_flush_time) →
      MetadataHandler.worker_iter cfg s poll now insertOk =
        ({ buffer := [], last_flush_time := now },
         MetadataHandler.flush_to_db (bufferAfterPoll cfg s poll) insertOk)) ∧
    (¬ (bufferAfterPoll cfg s poll ≠ [] ∧
        (cfg.batch_size ≤ (bufferAfterPoll cfg s poll).length ∨
          cfg.flush_interval ≤ now - s.last_flush_time)) →
      MetadataHandler.worker_iter cfg s poll now insertOk =
        ({ buffer := bufferAfterPoll cfg s poll,
           last_flush_time := s.last_flush_time }, [])) ∧
    (∀ batch b ok2, WorkerEvent.bulk_insert b ok2 ∈
        MetadataHandler.flush_to_db batch insertOk →
      b = batch ∧ ok2 = insertOk) ∧
    (∀ batch, MetadataHandler.flush_to_db batch true =
      [WorkerEvent.bulk_insert batch true]) ∧
    (∀ batch, MetadataHandler.flush_to_db batch false =
      [WorkerEvent.bulk_insert batch false, WorkerEvent.insert_error_logged]) ∧
    ((MetadataHandler.init none none none none).batch_size = 100 ∧
      (MetadataHandler.init none none none none).flush_interval = 5 ∧
      queue_poll_timeout = 1) := by
  refine ⟨?_, ?_, ?_, fun batch => rfl, fun batch => rfl, rfl, rfl, rfl⟩
  · intro hc
    rw [MetadataHandler.worker_iter]
    simp only [if_pos hc]
  · intro hc
    rw [MetadataHandler.worker_iter]
    simp only [if_neg hc]
  · intro batch b ok2 hm
    rw [MetadataHandler.flush_to_db] at hm
    cases insertOk <;> simp at hm <;> exact ⟨hm.1, hm.2⟩

/-- Witness for C7: a one-record buffer, an empty poll and a stale flush
window force a flush; the failing insert logs and the buffer is cleared. -/
theorem worker_flush_policy_witness :
    MetadataHandler.worker_iter demoCfg ⟨[demoMetadata], 0⟩ none 6 false =
      ({ buffer := [], last_flush_time := 6 },
       [WorkerEvent.bulk_insert [demoMetadata] false,
        WorkerEvent.insert_error_logged]) := by
  have h := (worker_flush_policy demoCfg ⟨[demoMetadata], 0⟩ none 6 false).1
  rw [h ?side]
  case side =>
    refine ⟨by simp [bufferAfterPoll], Or.inr ?_⟩
    show demoCfg.flush_interval ≤ (6 : ℚ) - 0
    norm_num [demoCfg, MetadataHandler.init]
  rfl

/-! ## C8 -/

theorem construct_always_none (kw : MetadataCtorKwargs) :
    Metadata.construct kw = none := by
  rw [Metadata.construct, if_neg]
  decide

theorem format_metadata_always_none (cfg : HandlerCfg) (item : QueueItem) :
    MetadataHandler.format_metadata cfg item = none := by
  rw [MetadataHandler.format_metadata]
  cases ht : mapOption (fun kv =>
      (formatTrack kv.2).map (fun ft => (kv.1, ft))) item.track_ids_info with
  | none => rfl
  | some tracks =>
    cases hi : pyFloat item.inference_time with
    | none => rfl
    | some inf => exact construct_always_none _

/-- Claim C8, code bug: _format_metadata constructs the Metadata document
with a keyword named device while the schema declares device_name, so the
constructor raises FieldDoesNotExist for every record; the except branch
logs and returns None, so every record is dropped and the buffer never
gains an entry.  The per-track coercion loop itself (bbox to int,
confidence to float, class id to int, zone map carried through) succeeds on
a well-formed record, as the concrete conjuncts show: the sole failure is
the constructor keyword. -/
theorem metadata_ctor_kwarg_bug :
    "device" ∈ MetadataCtorKwargs.names ∧
    "device" ∉ Metadata.schema_fields ∧
    (∀ (cfg : HandlerCfg) (item : QueueItem),
      MetadataHandler.format_metadata cfg item = none) ∧
    (∀ (cfg : HandlerCfg) (s : WorkerState) (item : QueueItem),
      bufferAfterPoll cfg s (some item) = s.buffer) ∧
    mapOption (fun kv => (formatTrack kv.2).map (fun ft => (kv.1, ft)))
      demoItem.track_ids_info = some [("5", demoFormatted)] ∧
    pyFloat demoItem.inference_time = some 2 ∧
    MetadataHandler.format_metadata demoCfg demoItem = none := by
  refine ⟨by decide, by decide, format_metadata_always_none, ?_, by decide,
    by decide, format_metadata_always_none demoCfg demoItem⟩
  intro cfg s item
  rw [bufferAfterPoll, format_metadata_always_none cfg item]

/-! ## C9 -/

/-- Claim C9: MetadataHandler.process returns the payload it was given and
never the abort sentinel; it appends exactly one queue item when meta holds
a non-empty track_ids_info and leaves the queue untouched otherwise. -/
theorem process_passthrough {F : Type} (q : List QueueItem) (p : MPayload F) :
    (MetadataHandler.process q p).2 = some p ∧
    (∀ t, p.meta.track_ids_info = some t → t ≠ [] →
      (MetadataHandler.process q p).1 = q ++ [mkQueueItem p t]) ∧
    (p.meta.track_ids_info = none → (MetadataHandler.process q p).1 = q) ∧
    (p.meta.track_ids_info = some [] → (MetadataHandler.process q p).1 = q) := by
  refine ⟨?_, ?_, ?_, ?_⟩
  · rw [MetadataHandler.process]
    cases ht : p.meta.track_ids_info with
    | none => rfl
    | some t => cases t <;> simp
  · intro t ht hne
    rw [MetadataHandler.process, ht]
    simp [List.isEmpty_iff, hne]
  · intro ht
    rw [MetadataHandler.process, ht]
  · intro ht
    rw [MetadataHandler.process, ht]
    simp

/-- Witness for C9: a payload carrying one track is passed through unchanged
and its lightweight item (equal to demoItem) is enqueued. -/
theorem process_passthrough_witness :
    (MetadataHandler.process [] demoMPayload).2 = some demoMPayload ∧
    (MetadataHandler.process [] demoMPayload).1 = [demoItem] := by
  have h := process_passthrough [] demoMPayload
  refine ⟨h.1, ?_⟩
  have h2 := h.2.1 [("5", demoDetails)] rfl (by simp)
  rw [h2]
  rfl

end Argus
